import Mathlib

/-!
Shallow embedding of `borderless/worker-sentry` (src/index.ts) and proofs
about its specified behaviour.

The embedding models:
* JavaScript JSON values (with an explicit `undef` marker, since
  `JSON.stringify` drops object entries whose value is `undefined` while
  keeping `null` entries),
* the V8 stack-trace facility used by `getErrorStack` (the global
  `Error.prepareStackTrace` slot, `Error.captureStackTrace`, and the
  ambient call stack at the moment of the call) as explicit state passing,
* the `Sentry` client: DSN configuration, the outbound request built by
  `captureException` (URL, headers, JSON body) and the single transport
  invocation.
-/

/-- JavaScript values as they appear in the object literal passed to
`JSON.stringify` in `captureException`.  `undef` is JavaScript `undefined`
(e.g. `options.level` when the caller did not supply it); `null` is JSON
null (e.g. the return value of `callSite.getFunctionName()` for an
anonymous function). -/
inductive JsValue where
  | undef
  | null
  | bool (b : Bool)
  | num (n : Int)
  | str (s : String)
  | arr (elems : List JsValue)
  | obj (fields : List (String × JsValue))
deriving Repr

/-- Whether a value is JavaScript `undefined`. -/
def JsValue.isUndef : JsValue → Bool
  | .undef => true
  | _ => false

mutual

/-- The document produced by `JSON.stringify`: object entries whose value
is `undefined` are dropped; an `undefined` array element is rendered as
`null`; everything else is kept structurally. -/
def JsValue.serialize : JsValue → JsValue
  | .undef => .null
  | .null => .null
  | .bool b => .bool b
  | .num n => .num n
  | .str s => .str s
  | .arr elems => .arr (serializeList elems)
  | .obj fields => .obj (serializeFields fields)

/-- `JSON.stringify` on the elements of an array. -/
def serializeList : List JsValue → List JsValue
  | [] => []
  | v :: rest => JsValue.serialize v :: serializeList rest

/-- `JSON.stringify` on the entries of an object: entries whose value is
`undefined` are dropped. -/
def serializeFields : List (String × JsValue) → List (String × JsValue)
  | [] => []
  | (k, v) :: rest =>
    if v.isUndef then serializeFields rest
    else (k, JsValue.serialize v) :: serializeFields rest

end

/-- Look a key up in a JSON object (first entry wins, as JavaScript
property access on the objects built here, whose keys are distinct). -/
def JsValue.lookup (v : JsValue) (k : String) : Option JsValue :=
  match v with
  | .obj fields => (fields.find? (fun p => p.1 = k)).map (fun p => p.2)
  | _ => none

/-- A V8 call site (the `CallSite` interface of src/index.ts), restricted
to the accessors `captureException` actually reads.  The getters
`getFunctionName`, `getFileName`, `getLineNumber` and `getColumnNumber`
return `null` when the frame lacks the information, hence `Option`;
`thisRepr` is the string rendering `String(callSite.getThis())`. -/
structure CallSite where
  functionName : Option String
  fileName : Option String
  lineNumber : Option Int
  columnNumber : Option Int
  isNative : Bool
  thisRepr : String
deriving Repr, DecidableEq

/-- The value held by the global `Error.prepareStackTrace` slot.
`original b` is an ambient hook whose invocation throws exactly when
`b = true`; `swapped saved` is the temporary closure installed by
`getErrorStack`, closing over the hook value `saved` it displaced (the
closure records the raw trace and then forwards to `saved`). -/
inductive HookVal where
  | noHook
  | original (throws : Bool)
  | swapped (saved : HookVal)
deriving Repr, DecidableEq

/-- Whether invoking a hook value throws.  The absent hook does nothing;
the temporary closure installed by `getErrorStack` records the trace
(which cannot fail) and then invokes the hook it closed over. -/
def hookThrows : HookVal → Bool
  | .noHook => false
  | .original throws => throws
  | .swapped saved => hookThrows saved

/-- The process-wide V8 state `getErrorStack` interacts with: the global
`Error.prepareStackTrace` slot, and the ambient call stack above the
`getErrorStack` call site at the moment of the call (what
`Error.captureStackTrace(error, getErrorStack)` snapshots, the cut-off
excluding `getErrorStack` itself). -/
structure V8State where
  prepareStackTrace : HookVal
  currentStack : List CallSite
deriving Repr, DecidableEq

/-- A JavaScript `Error` as `captureException` reads it: `name`,
`message`, and the stack trace attached to it (the provenance of its
`stack` property). -/
structure JsError where
  name : String
  message : String
  stackTrace : List CallSite
deriving Repr, DecidableEq

/-- `getErrorStack` of src/index.ts, as explicit state passing.  It saves
the global `Error.prepareStackTrace`, installs a temporary closure,
re-captures the error's stack at the call point via
`Error.captureStackTrace(error, getErrorStack)` (overwriting the error's
attached trace with the ambient stack), triggers formatting by touching
`error.stack` (which invokes the installed closure: it records the raw
trace, then forwards to the saved hook — if that hook throws, the
exception propagates and the restoring assignment on the next line never
runs), then restores the saved hook and returns the recorded trace.
Returns (result, mutated error, final V8 state). -/
def getErrorStack (error : JsError) (st : V8State) :
    Except Unit (List CallSite) × JsError × V8State :=
  let saved := st.prepareStackTrace
  let error2 : JsError := { error with stackTrace := st.currentStack }
  if hookThrows saved then
    (Except.error (), error2, { st with prepareStackTrace := HookVal.swapped saved })
  else
    (Except.ok st.currentStack, error2, { st with prepareStackTrace := saved })

/-- The components of `new URL(dsn)`: the connection string as parsed by
the platform's URL constructor in the `Sentry` constructor. -/
structure URL where
  protocol : String
  username : String
  host : String
  pathname : String
deriving Repr, DecidableEq

/-- The asynchronous outcome of the transport function: the promise it
returns either resolves with a response carrying a status code, or
rejects with a reason. -/
inductive TransportResult where
  | resolved (status : Nat)
  | rejected (reason : String)
deriving Repr, DecidableEq

/-- The outbound `Request` built by `captureException`: URL, method,
headers, and the JSON document produced by `JSON.stringify` as the body. -/
structure SentryRequest where
  url : String
  method : String
  headers : List (String × String)
  body : JsValue
deriving Repr

/-- The `user` sub-object of `CaptureExceptionOptions` (src/index.ts). -/
structure UserOptions where
  id : Option String := none
  username : Option String := none
  email : Option String := none
  ip : Option String := none
deriving Repr

/-- The `request` sub-object of `CaptureExceptionOptions` (src/index.ts).
`cookies` may be a string, a record or a pair list, so it is modelled as
an arbitrary JSON value. -/
structure RequestOptions where
  method : Option String := none
  url : Option String := none
  headers : Option (List (String × String)) := none
  query : Option String := none
  cookies : Option JsValue := none
  env : Option (List (String × String)) := none
deriving Repr

/-- One entry of the `breadcrumbs` list of `CaptureExceptionOptions`
(src/index.ts).  The `timestamp` is the serialized rendering of the
`Date`. -/
structure Breadcrumb where
  timestamp : Option String := none
  type : Option String := none
  category : Option String := none
  message : Option String := none
  data : Option (List (String × JsValue)) := none
  level : Option String := none
deriving Repr

/-- `CaptureExceptionOptions` of src/index.ts: an open bag of optional
fields.  `level` is one of the five `SentryLevel` strings; `extra` maps
strings to arbitrary values. -/
structure CaptureExceptionOptions where
  level : Option String := none
  extra : Option (List (String × JsValue)) := none
  tags : Option (List (String × String)) := none
  release : Option String := none
  dist : Option String := none
  environment : Option String := none
  serverName : Option String := none
  transaction : Option String := none
  modules : Option (List (String × String)) := none
  user : Option UserOptions := none
  fingerprint : Option (List String) := none
  request : Option RequestOptions := none
  breadcrumbs : Option (List Breadcrumb) := none
deriving Repr

/-- An absent optional string renders as JavaScript `undefined` (dropped
by `JSON.stringify`); a present one as a JSON string. -/
def jsOptStr : Option String → JsValue
  | none => .undef
  | some s => .str s

/-- A `Record<string, string>` option: `undefined` when absent, an object
of string entries when present. -/
def jsOptStrMap : Option (List (String × String)) → JsValue
  | none => .undef
  | some entries => .obj (entries.map (fun p => (p.1, JsValue.str p.2)))

/-- A `Record<string, unknown>` option: `undefined` when absent. -/
def jsOptObj : Option (List (String × JsValue)) → JsValue
  | none => .undef
  | some fields => .obj fields

/-- A `string[]` option: `undefined` when absent. -/
def jsOptStrList : Option (List String) → JsValue
  | none => .undef
  | some elems => .arr (elems.map JsValue.str)

/-- An option holding an arbitrary value (`cookies`): `undefined` when
absent. -/
def jsOptVal : Option JsValue → JsValue
  | none => .undef
  | some v => v

/-- A nullable string from a `CallSite` getter: JSON `null` when the
frame lacks the information (kept by `JSON.stringify`, unlike
`undefined`). -/
def jsNullStr : Option String → JsValue
  | none => .null
  | some s => .str s

/-- A nullable number from a `CallSite` getter: JSON `null` when absent. -/
def jsNullNum : Option Int → JsValue
  | none => .null
  | some n => .num n

/-- One frame of the emitted `stacktrace.frames` list, as built by the
`map` in `captureException` (src/index.ts lines 183-192). -/
def frameOfCallSite (c : CallSite) : JsValue :=
  .obj [
    ("function", jsNullStr c.functionName),
    ("filename", jsNullStr c.fileName),
    ("lineno", jsNullNum c.lineNumber),
    ("colno", jsNullNum c.columnNumber),
    ("in_app", .bool (!c.isNative)),
    ("vars", .obj [("this", .str c.thisRepr)])]

/-- The object literal passed to `JSON.stringify` in `captureException`
(src/index.ts lines 170-217), given the error, the options, and the call
sites returned by `getErrorStack`.  Field list and order follow the
source; note that `options.modules` and `options.breadcrumbs` do not
appear in it. -/
def rawBody (error : JsError) (options : CaptureExceptionOptions)
    (frames : List CallSite) : JsValue :=
  .obj [
    ("logger", .str "worker"),
    ("platform", .str "javascript"),
    ("level", jsOptStr options.level),
    ("extra", jsOptObj options.extra),
    ("fingerprint", jsOptStrList options.fingerprint),
    ("exception", .obj [
      ("values", .arr [
        .obj [
          ("type", .str error.name),
          ("value", .str error.message),
          ("stacktrace", .obj [
            ("frames", .arr (frames.map frameOfCallSite))])]])]),
    ("tags", jsOptStrMap options.tags),
    ("user", .obj [
      ("id", jsOptStr (options.user.bind (fun u => u.id))),
      ("email", jsOptStr (options.user.bind (fun u => u.email))),
      ("username", jsOptStr (options.user.bind (fun u => u.username))),
      ("ip_address", jsOptStr (options.user.bind (fun u => u.ip)))]),
    ("request", .obj [
      ("url", jsOptStr (options.request.bind (fun r => r.url))),
      ("method", jsOptStr (options.request.bind (fun r => r.method))),
      ("headers", jsOptStrMap (options.request.bind (fun r => r.headers))),
      ("query_string", jsOptStr (options.request.bind (fun r => r.query))),
      ("cookies", jsOptVal (options.request.bind (fun r => r.cookies))),
      ("env", jsOptStrMap (options.request.bind (fun r => r.env)))]),
    ("server_name", jsOptStr options.serverName),
    ("transaction", jsOptStr options.transaction),
    ("release", jsOptStr options.release),
    ("dist", jsOptStr options.dist),
    ("environment", jsOptStr options.environment)]

/-- The `Sentry` client: the parsed DSN stored by the constructor
(`this.sentryUrl = new URL(options.dsn)`) and the transport function
(`this.fetch = options.fetch || fetch.bind(null)`). -/
structure Sentry where
  sentryUrl : URL
  fetch : SentryRequest → TransportResult

/-- `SentryOptions` of src/index.ts: the DSN (already parsed, since URL
parsing is the platform's) and an optional transport. -/
structure SentryOptions where
  dsn : URL
  fetch : Option (SentryRequest → TransportResult) := none

/-- The `Sentry` constructor: stores `new URL(options.dsn)` and the
supplied transport, defaulting to the ambient `fetch`. -/
def Sentry.new (ambientFetch : SentryRequest → TransportResult)
    (options : SentryOptions) : Sentry :=
  { sentryUrl := options.dsn, fetch := options.fetch.getD ambientFetch }

/-- The `Request` value constructed by `captureException` (src/index.ts
lines 160-220): the URL hardcodes the host `sentry.io` and splices in the
DSN's path; the headers carry the fixed content type, the fixed client
identifier, and the auth header embedding the DSN's username; the body is
the stringified document. -/
def Sentry.buildRequest (s : Sentry) (error : JsError)
    (options : CaptureExceptionOptions) (frames : List CallSite) : SentryRequest :=
  { url := "https://sentry.io/api" ++ s.sentryUrl.pathname ++ "/store/"
    method := "POST"
    headers := [
      ("Content-Type", "application/json"),
      ("User-Agent", "Cloudflare-Worker/1.0"),
      ("X-Sentry-Auth",
        "Sentry sentry_version=7, sentry_client=Cloudflare-Worker/1.0, sentry_key="
          ++ s.sentryUrl.username)]
    body := JsValue.serialize (rawBody error options frames) }

/-- The observable outcome of one `captureException` call: its
synchronous result (`Except.error ()` when stack extraction threw before
any request was issued, otherwise the transport's asynchronous result
returned verbatim), the requests passed to the transport function in
order, the error object after the call (it is mutated), and the final V8
state. -/
structure CaptureOutcome where
  result : Except Unit TransportResult
  transportCalls : List SentryRequest
  error : JsError
  v8 : V8State

/-- `Sentry.captureException` of src/index.ts: extract the call sites
(this happens while the body object literal is evaluated, before the
`Request` exists and before the transport runs — an extraction fault
therefore aborts the whole call with no request issued), build the one
request, and invoke the stored transport exactly once with it, returning
its result unmodified. -/
def Sentry.captureException (s : Sentry) (error : JsError)
    (options : CaptureExceptionOptions) (st : V8State) : CaptureOutcome :=
  match getErrorStack error st with
  | (Except.error _, error2, st2) =>
    { result := Except.error (), transportCalls := [], error := error2, v8 := st2 }
  | (Except.ok frames, error2, st2) =>
    let req := s.buildRequest error2 options frames
    { result := Except.ok (s.fetch req), transportCalls := [req], error := error2, v8 := st2 }

/-- The `exception.values` list of an emitted document. -/
def exceptionValues (body : JsValue) : List JsValue :=
  match body.lookup "exception" with
  | some ev =>
    match ev.lookup "values" with
    | some (.arr elems) => elems
    | _ => []
  | _ => []

/-- The `stacktrace.frames` list of the sole exception value of an
emitted document. -/
def stackFrames (body : JsValue) : List JsValue :=
  match exceptionValues body with
  | [v] =>
    match v.lookup "stacktrace" with
    | some stv =>
      match stv.lookup "frames" with
      | some (.arr elems) => elems
      | _ => []
    | _ => []
  | _ => []

/-- Spec-side description of one emitted frame descriptor, written from
the spec's mapping policy: `in_app` is the negation of the frame's
native flag, and `function`, `filename`, `lineno`, `colno` are passed
through unmodified, with JSON `null` where the native frame lacks the
information. -/
def specFrame (c : CallSite) : JsValue :=
  .obj [
    ("function", jsNullStr c.functionName),
    ("filename", jsNullStr c.fileName),
    ("lineno", jsNullNum c.lineNumber),
    ("colno", jsNullNum c.columnNumber),
    ("in_app", .bool (!c.isNative)),
    ("vars", .obj [("this", .str c.thisRepr)])]

/-- Spec-side form of the outbound URL as the spec states it: built from
the connection string's host and path components. -/
def specUrl (u : URL) : String :=
  "https://" ++ u.host ++ "/api" ++ u.pathname ++ "/store/"

/- Helper lemmas about serialization. -/

theorem find_serializeFields (fields : List (String × JsValue)) (k : String) :
    (serializeFields fields).find? (fun p => p.1 = k) =
      (fields.find? (fun p => p.1 = k && !p.2.isUndef)).map
        (fun p => (p.1, JsValue.serialize p.2)) := by
  induction fields with
  | nil => rfl
  | cons a rest ih =>
    obtain ⟨k2, v⟩ := a
    by_cases hv : v.isUndef
    · simp [serializeFields, hv, List.find?, ih]
    · simp only [serializeFields, hv, if_false, Bool.false_eq_true]
      by_cases hk : k2 = k
      · subst hk
        simp [List.find?, hv]
      · simp [List.find?, hk, ih]

theorem lookup_serialize_obj (fields : List (String × JsValue)) (k : String) :
    (JsValue.serialize (.obj fields)).lookup k =
      ((fields.find? (fun p => p.1 = k && !p.2.isUndef)).map
        (fun p => JsValue.serialize p.2)) := by
  simp [JsValue.serialize, JsValue.lookup, find_serializeFields, Option.map_map]
  rfl

theorem serializeList_eq_map (elems : List JsValue) :
    serializeList elems = elems.map JsValue.serialize := by
  induction elems with
  | nil => rfl
  | cons v rest ih => simp [serializeList, ih]

theorem serialize_frameOfCallSite (c : CallSite) :
    JsValue.serialize (frameOfCallSite c) = frameOfCallSite c := by
  obtain ⟨fn, file, ln, col, nat, th⟩ := c
  cases fn <;> cases file <;> cases ln <;> cases col <;>
    simp [frameOfCallSite, jsNullStr, jsNullNum, JsValue.serialize,
      serializeFields, serializeList, JsValue.isUndef]

/-- One-stop description of a `captureException` call: if the saved hook
throws during extraction the call aborts with no request, otherwise the
single request is issued and the transport's result returned verbatim. -/
theorem captureException_eq (s : Sentry) (e : JsError)
    (o : CaptureExceptionOptions) (st : V8State) :
    s.captureException e o st =
      if hookThrows st.prepareStackTrace then
        { result := Except.error (), transportCalls := [],
          error := { e with stackTrace := st.currentStack },
          v8 := { st with prepareStackTrace := HookVal.swapped st.prepareStackTrace } }
      else
        { result := Except.ok (s.fetch
            (s.buildRequest { e with stackTrace := st.currentStack } o st.currentStack)),
          transportCalls :=
            [s.buildRequest { e with stackTrace := st.currentStack } o st.currentStack],
          error := { e with stackTrace := st.currentStack },
          v8 := st } := by
  unfold Sentry.captureException getErrorStack
  by_cases h : hookThrows st.prepareStackTrace <;> simp [h]

/-- Any request handed to the transport during `captureException` is the
one request built from the mutated error, the options and the
report-time stack. -/
theorem mem_transportCalls (s : Sentry) (e : JsError)
    (o : CaptureExceptionOptions) (st : V8State) (req : SentryRequest)
    (h : req ∈ (s.captureException e o st).transportCalls) :
    req = s.buildRequest { e with stackTrace := st.currentStack } o st.currentStack := by
  rw [captureException_eq] at h
  by_cases hh : hookThrows st.prepareStackTrace <;> simp [hh] at h
  exact h

/- Concrete values used by witnesses and counterexamples, following the
repository's test suite (DSN `https://123@456.ingest.sentry.io/789`, a
mock transport resolving with status 200) and the spec's §8 scenario
(DSN `https://123@456.ingest.example.com/789`, error `Boom!`). -/

/-- The test suite's DSN, parsed. -/
def testDsn : URL :=
  { protocol := "https", username := "123", host := "456.ingest.sentry.io",
    pathname := "/789" }

/-- The spec's §8 scenario DSN, parsed. -/
def exampleDsn : URL :=
  { protocol := "https", username := "123", host := "456.ingest.example.com",
    pathname := "/789" }

/-- A transport that resolves with status 200, as the test suite's mock. -/
def okFetch : SentryRequest → TransportResult := fun _ => .resolved 200

/-- The client of the test suite. -/
def testClient : Sentry := Sentry.new okFetch { dsn := testDsn, fetch := some okFetch }

/-- The client of the spec's §8 scenario. -/
def exampleClient : Sentry := Sentry.new okFetch { dsn := exampleDsn, fetch := some okFetch }

/-- A concrete call site. -/
def testFrame : CallSite :=
  { functionName := some "handler",
    fileName := some "/worker-sentry/src/index.spec.ts",
    lineNumber := some 21, columnNumber := some 5,
    isNative := false, thisRepr := "undefined" }

/-- A V8 state with no ambient hook and one frame on the stack. -/
def testState : V8State := { prepareStackTrace := .noHook, currentStack := [testFrame] }

/-- A V8 state whose ambient hook throws when invoked. -/
def throwingHookState : V8State :=
  { prepareStackTrace := .original true, currentStack := [testFrame] }

/-- The test suite's error. -/
def testError : JsError := { name := "Error", message := "Boom!", stackTrace := [] }

/-- The request `captureException testError {}` issues under `testState`. -/
def testRequest : SentryRequest :=
  testClient.buildRequest { testError with stackTrace := testState.currentStack } {}
    testState.currentStack

/-- Serializing the emitted frame list leaves it unchanged: no frame
descriptor contains an `undefined`. -/
theorem serializeList_frames (frames : List CallSite) :
    serializeList (frames.map frameOfCallSite) = frames.map frameOfCallSite := by
  induction frames with
  | nil => rfl
  | cons c rest ih => simp [serializeList, serialize_frameOfCallSite, ih]

/-- The `exception` entry of the emitted document: always present, with
the one-element `values` list and the serialized frames. -/
theorem body_lookup_exception (e : JsError) (o : CaptureExceptionOptions)
    (frames : List CallSite) :
    (JsValue.serialize (rawBody e o frames)).lookup "exception" =
      some (.obj [("values", .arr [.obj [
        ("type", .str e.name), ("value", .str e.message),
        ("stacktrace", .obj [("frames", .arr (frames.map frameOfCallSite))])]])]) := by
  rw [rawBody, lookup_serialize_obj]
  simp [List.find?, JsValue.isUndef, JsValue.serialize, serializeFields,
    serializeList, serializeList_frames]

/-- The `exception.values` list of the document emitted by
`buildRequest` is the one-element list carrying the error's name,
message and frames. -/
theorem exceptionValues_buildRequest (s : Sentry) (e : JsError)
    (o : CaptureExceptionOptions) (frames : List CallSite) :
    exceptionValues (s.buildRequest e o frames).body =
      [.obj [("type", .str e.name), ("value", .str e.message),
        ("stacktrace", .obj [("frames", .arr (frames.map frameOfCallSite))])]] := by
  unfold exceptionValues Sentry.buildRequest
  rw [body_lookup_exception]
  simp [JsValue.lookup, List.find?]

/-- The emitted `stacktrace.frames` list of `buildRequest` is the
extracted call-site list mapped through the frame descriptor. -/
theorem stackFrames_buildRequest (s : Sentry) (e : JsError)
    (o : CaptureExceptionOptions) (frames : List CallSite) :
    stackFrames (s.buildRequest e o frames).body = frames.map specFrame := by
  unfold stackFrames
  rw [exceptionValues_buildRequest]
  simp [JsValue.lookup, List.find?]
  exact fun c _ => rfl

/-- C1 counterexample: with the spec's §8 connection string
`https://123@456.ingest.example.com/789`, the outbound request's URL is
`https://sentry.io/api/789/store/` — the host is the hardcoded
`sentry.io`, not the connection string's host component, so the URL
differs from the spec's formula `https://<collector-host>/api<path>/store/`. -/
theorem c1_url_counterexample :
    (exampleClient.captureException testError {} testState).transportCalls.map
        SentryRequest.url = ["https://sentry.io/api/789/store/"] ∧
    specUrl exampleClient.sentryUrl = "https://456.ingest.example.com/api/789/store/" ∧
    ("https://sentry.io/api/789/store/" : String) ≠
      "https://456.ingest.example.com/api/789/store/" := by
  refine ⟨rfl, rfl, ?_⟩
  decide

/-- C1 (amended): the outbound request's URL of every `captureException`
call equals `https://sentry.io/api<project-path>/store/`, where the host
is the constant `sentry.io` and `<project-path>` is the path component
of the connection string configured at construction. -/
theorem c1_url_amended (s : Sentry) (e : JsError) (o : CaptureExceptionOptions)
    (st : V8State) (req : SentryRequest)
    (h : req ∈ (s.captureException e o st).transportCalls) :
    req.url = "https://sentry.io/api" ++ s.sentryUrl.pathname ++ "/store/" := by
  rw [mem_transportCalls s e o st req h]
  rfl

/-- C1 witness: the amended URL shape at the test suite's client and call. -/
theorem c1_url_amended_witness :
    testRequest.url = "https://sentry.io/api" ++ testClient.sentryUrl.pathname ++ "/store/" :=
  c1_url_amended testClient testError {} testState testRequest (List.Mem.head _)

/-- C3 counterexample: when the saved global hook throws on invocation,
`getErrorStack` returns with the temporary hook still installed — the
global `Error.prepareStackTrace` is not restored to its pre-call value. -/
theorem c3_restore_counterexample :
    (getErrorStack testError throwingHookState).2.2.prepareStackTrace ≠
      throwingHookState.prepareStackTrace := by decide

/-- C3 (amended): `getErrorStack` restores `Error.prepareStackTrace` to
its pre-call value on every path on which triggering the trace returns,
i.e. whenever the saved hook (forwarded to by the temporary hook) does
not throw; when it throws, the exception propagates before the restoring
assignment and the temporary hook remains installed. -/
theorem c3_restored_unless_hook_throws (e : JsError) (st : V8State)
    (h : hookThrows st.prepareStackTrace = false) :
    (getErrorStack e st).2.2.prepareStackTrace = st.prepareStackTrace := by
  unfold getErrorStack
  simp [h]

/-- C3 witness: the hook is restored under the test state's absent hook. -/
theorem c3_restored_witness :
    (getErrorStack testError testState).2.2.prepareStackTrace =
      testState.prepareStackTrace :=
  c3_restored_unless_hook_throws testError testState (by decide)

/-- C4: if stack extraction raises during `captureException`, the whole
call fails and the transport is never invoked — no request is issued. -/
theorem c4_no_transport_on_extraction_fault (s : Sentry) (e : JsError)
    (o : CaptureExceptionOptions) (st : V8State)
    (h : (getErrorStack e st).1 = Except.error ()) :
    (s.captureException e o st).result = Except.error () ∧
    (s.captureException e o st).transportCalls = [] := by
  unfold getErrorStack at h
  rw [captureException_eq]
  by_cases hh : hookThrows st.prepareStackTrace
  · simp [hh]
  · simp [hh] at h

/-- C4 witness: with a throwing ambient hook, extraction raises, the
call fails and no request is issued. -/
theorem c4_no_transport_witness :
    (testClient.captureException testError {} throwingHookState).result =
      Except.error () ∧
    (testClient.captureException testError {} throwingHookState).transportCalls = [] :=
  c4_no_transport_on_extraction_fault testClient testError {} throwingHookState rfl

/-- C7: when extraction does not fault, `captureException` invokes the
configured transport exactly once (one request in the call list) and
returns the transport's result unmodified — a resolution as-is, a
rejection with the same reason, inside the same `TransportResult`. -/
theorem c7_transport_once_verbatim (s : Sentry) (e : JsError)
    (o : CaptureExceptionOptions) (st : V8State)
    (h : hookThrows st.prepareStackTrace = false) :
    (s.captureException e o st).transportCalls =
      [s.buildRequest { e with stackTrace := st.currentStack } o st.currentStack] ∧
    (s.captureException e o st).result =
      Except.ok (s.fetch
        (s.buildRequest { e with stackTrace := st.currentStack } o st.currentStack)) := by
  rw [captureException_eq]
  simp [h]

/-- C7 witness: one transport call, result returned verbatim, at the
test suite's client and call. -/
theorem c7_transport_once_witness :
    (testClient.captureException testError {} testState).transportCalls = [testRequest] ∧
    (testClient.captureException testError {} testState).result =
      Except.ok (testClient.fetch testRequest) :=
  c7_transport_once_verbatim testClient testError {} testState (by decide)

/-- C9: every outbound request carries the fixed content-type header,
the fixed client identifier header, and the auth header
`Sentry sentry_version=7, sentry_client=Cloudflare-Worker/1.0,
sentry_key=<credential>` where the credential is exactly the username
component of the connection string configured at construction. -/
theorem c9_headers (s : Sentry) (e : JsError) (o : CaptureExceptionOptions)
    (st : V8State) (req : SentryRequest)
    (h : req ∈ (s.captureException e o st).transportCalls) :
    req.headers = [
      ("Content-Type", "application/json"),
      ("User-Agent", "Cloudflare-Worker/1.0"),
      ("X-Sentry-Auth",
        "Sentry sentry_version=7, sentry_client=Cloudflare-Worker/1.0, sentry_key="
          ++ s.sentryUrl.username)] := by
  rw [mem_transportCalls s e o st req h]
  rfl

/-- C9 witness: the headers at the test suite's client and call. -/
theorem c9_headers_witness :
    testRequest.headers = [
      ("Content-Type", "application/json"),
      ("User-Agent", "Cloudflare-Worker/1.0"),
      ("X-Sentry-Auth",
        "Sentry sentry_version=7, sentry_client=Cloudflare-Worker/1.0, sentry_key="
          ++ testClient.sentryUrl.username)] :=
  c9_headers testClient testError {} testState testRequest (List.Mem.head _)

/-- C5: the emitted document's `exception.values` field is a one-element
list whose element has `type` equal to the error's name and `value`
equal to the error's message. -/
theorem c5_exception_values (s : Sentry) (e : JsError)
    (o : CaptureExceptionOptions) (st : V8State) (req : SentryRequest)
    (h : req ∈ (s.captureException e o st).transportCalls) :
    (exceptionValues req.body).map
        (fun v => (v.lookup "type", v.lookup "value")) =
      [(some (.str e.name), some (.str e.message))] := by
  rw [mem_transportCalls s e o st req h, exceptionValues_buildRequest]
  simp [JsValue.lookup, List.find?]

/-- C5 witness: type `Error` and value `Boom!` at the test suite's call. -/
theorem c5_exception_values_witness :
    (exceptionValues testRequest.body).map
        (fun v => (v.lookup "type", v.lookup "value")) =
      [(some (.str testError.name), some (.str testError.message))] :=
  c5_exception_values testClient testError {} testState testRequest (List.Mem.head _)

/-- C6: every emitted frame descriptor has `in_app` equal to the
negation of the frame's native flag, and passes `function`, `filename`,
`lineno` and `colno` through unmodified from the extracted call site,
with JSON `null` where the call site lacks the information: the emitted
frame list is exactly the extracted stack mapped through `specFrame`. -/
theorem c6_frame_descriptors (s : Sentry) (e : JsError)
    (o : CaptureExceptionOptions) (st : V8State) (req : SentryRequest)
    (h : req ∈ (s.captureException e o st).transportCalls) :
    stackFrames req.body = st.currentStack.map specFrame := by
  rw [mem_transportCalls s e o st req h]
  exact stackFrames_buildRequest s { e with stackTrace := st.currentStack } o
    st.currentStack

/-- C6 witness: the frame descriptor of the test state's single frame. -/
theorem c6_frame_descriptors_witness :
    stackFrames testRequest.body = testState.currentStack.map specFrame :=
  c6_frame_descriptors testClient testError {} testState testRequest (List.Mem.head _)

/-- C10: every `captureException` call mutates its error argument — the
error's stack trace is re-captured at the point of the call (via
`Error.captureStackTrace` with `getErrorStack` as cut-off), overwriting
the previously attached trace with the report-time stack — and the
frames of the emitted document describe that report-time stack. -/
theorem c10_error_recaptured (s : Sentry) (e : JsError)
    (o : CaptureExceptionOptions) (st : V8State) :
    (s.captureException e o st).error = { e with stackTrace := st.currentStack } ∧
    ∀ req ∈ (s.captureException e o st).transportCalls,
      stackFrames req.body = st.currentStack.map specFrame := by
  constructor
  · rw [captureException_eq]
    by_cases hh : hookThrows st.prepareStackTrace <;> simp [hh]
  · intro req h
    rw [mem_transportCalls s e o st req h]
    exact stackFrames_buildRequest s { e with stackTrace := st.currentStack } o
      st.currentStack

/-- C10 witness: the error whose attached trace is empty leaves the call
with the report-time stack attached, and the emitted frames describe
that stack. -/
theorem c10_error_recaptured_witness :
    (testClient.captureException testError {} testState).error =
      { testError with stackTrace := testState.currentStack } ∧
    stackFrames testRequest.body = testState.currentStack.map specFrame :=
  ⟨(c10_error_recaptured testClient testError {} testState).1,
    (c10_error_recaptured testClient testError {} testState).2 testRequest
      (List.Mem.head _)⟩

/-- C8: every unset optional field is absent from the emitted document
(dropped by `JSON.stringify`, not rendered as `null`), except that
`user` and `request` are always present and are the empty object when
the corresponding option was not supplied. -/
theorem c8_unset_omitted (s : Sentry) (e : JsError)
    (o : CaptureExceptionOptions) (st : V8State) (req : SentryRequest)
    (h : req ∈ (s.captureException e o st).transportCalls) :
    (o.level = none → req.body.lookup "level" = none) ∧
    (o.extra = none → req.body.lookup "extra" = none) ∧
    (o.fingerprint = none → req.body.lookup "fingerprint" = none) ∧
    (o.tags = none → req.body.lookup "tags" = none) ∧
    (o.serverName = none → req.body.lookup "server_name" = none) ∧
    (o.transaction = none → req.body.lookup "transaction" = none) ∧
    (o.release = none → req.body.lookup "release" = none) ∧
    (o.dist = none → req.body.lookup "dist" = none) ∧
    (o.environment = none → req.body.lookup "environment" = none) ∧
    (o.user = none → req.body.lookup "user" = some (.obj [])) ∧
    (o.request = none → req.body.lookup "request" = some (.obj [])) := by
  rw [mem_transportCalls s e o st req h]
  dsimp only [Sentry.buildRequest]
  refine ⟨?_, ?_, ?_, ?_, ?_, ?_, ?_, ?_, ?_, ?_, ?_⟩ <;>
    (intro hf
     rw [rawBody, lookup_serialize_obj]
     simp [List.find?, hf, jsOptStr, jsOptObj, jsOptStrList, jsOptStrMap,
       jsOptVal, JsValue.isUndef, JsValue.serialize, serializeFields])

/-- C8 witness: with no options supplied, `level` is absent and `user`
and `request` are the empty object. -/
theorem c8_unset_omitted_witness :
    testRequest.body.lookup "level" = none ∧
    testRequest.body.lookup "user" = some (.obj []) ∧
    testRequest.body.lookup "request" = some (.obj []) := by
  have h := c8_unset_omitted testClient testError {} testState testRequest
    (List.Mem.head _)
  exact ⟨h.1 rfl, h.2.2.2.2.2.2.2.2.2.1 rfl, h.2.2.2.2.2.2.2.2.2.2 rfl⟩

/-- The repository's own test options carrying breadcrumbs (as in
`should send all properties` of the test suite) plus a modules map. -/
def bugOptions : CaptureExceptionOptions :=
  { breadcrumbs := some [{ type := some "error", message := some "error" }],
    modules := some [("module-a", "1.0.0")] }

/-- C2 fails on the code: `breadcrumbs` and `modules` are declared (and
documented) members of `CaptureExceptionOptions`, and the test suite
expects `breadcrumbs` among the emitted keys, but the body literal in
`captureException` never includes them — both keys are absent from the
emitted document even when explicitly provided. -/
theorem c2_breadcrumbs_modules_dropped :
    bugOptions.breadcrumbs.isSome = true ∧ bugOptions.modules.isSome = true ∧
    (testClient.captureException testError bugOptions testState).transportCalls.map
        (fun r => (r.body.lookup "breadcrumbs", r.body.lookup "modules")) =
      [(none, none)] :=
  ⟨rfl, rfl, rfl⟩
